import Mathlib

/-
  Verification development for the HLS CDN proxy (Cloudflare Pages Functions).
  The repository contains four variants of the request handler:
    * src/unnamed/part_000            — "v4 Production Ready" handler   (part000...)
    * src/functions/_middleware.js    — retrying handler                (middleware..., fetchWithRetry)
    * src/examples/performance-test.js lines 289-447 — "v2 Stable"      (v2...)
    * src/examples/performance-test.js lines 449-689 — coalescing       (v3..., coalescer)
  Each definition below is a shallow embedding of the corresponding JavaScript,
  translated statement by statement from the source.
-/

namespace HlsProxy

/-- HTTP headers, modelling the platform Headers object as an association list;
lookup returns the first binding for a name. -/
abbrev Headers := List (String × String)

/-- Headers.get: first value bound to the name, if any. -/
def getH (k : String) (hs : Headers) : Option String :=
  (hs.find? (fun p => p.1 == k)).map (fun p => p.2)

/-- Headers.set: bind the name to the value, dropping any previous binding. -/
def setH (k v : String) (hs : Headers) : Headers :=
  (k, v) :: hs.filter (fun p => p.1 != k)

/-- Headers.delete: drop every binding of the name. -/
def delH (k : String) (hs : Headers) : Headers :=
  hs.filter (fun p => p.1 != k)

theorem find?_filter_ne (k k' : String) (hk : k ≠ k') (hs : Headers) :
    (hs.filter (fun p => p.1 != k')).find? (fun p => p.1 == k)
      = hs.find? (fun p => p.1 == k) := by
  induction hs with
  | nil => rfl
  | cons p t ih =>
      by_cases hp : p.1 = k'
      · have hpk : (p.1 == k) = false := by
          refine beq_eq_false_iff_ne.mpr ?_
          rw [hp]; exact fun h => hk h.symm
        have hfil : (p.1 != k') = false := by simp [bne, hp]
        simp [List.filter_cons, hfil, List.find?_cons, hpk, ih]
      · have hfil : (p.1 != k') = true := by simp [bne, hp]
        by_cases hpk : p.1 = k
        · simp [List.filter_cons, hfil, List.find?_cons, hpk, hk]
        · have hpk' : (p.1 == k) = false := beq_eq_false_iff_ne.mpr hpk
          simp [List.filter_cons, hfil, List.find?_cons, hpk', ih]

theorem getH_setH (k k' v : String) (hs : Headers) :
    getH k (setH k' v hs) = if k = k' then some v else getH k hs := by
  by_cases h : k = k'
  · subst h
    simp [getH, setH, List.find?_cons]
  · have hne : (k' == k) = false := beq_eq_false_iff_ne.mpr (fun e => h e.symm)
    simp [getH, setH, List.find?_cons, hne, h, find?_filter_ne k k' h hs]

/-- corsHeaders object of part_000. -/
def corsHeaders : Headers :=
  [("Access-Control-Allow-Origin", "*"),
   ("Access-Control-Allow-Methods", "GET, HEAD, OPTIONS"),
   ("Access-Control-Allow-Headers", "*"),
   ("Access-Control-Expose-Headers", "*"),
   ("Access-Control-Max-Age", "86400")]

/-- Object.keys(cors).forEach(key =&gt; headers.set(key, cors[key])). -/
def setCors (cors : Headers) (hs : Headers) : Headers :=
  cors.foldl (fun acc p => setH p.1 p.2 acc) hs

/-- URL components that matter to the handlers: url.pathname and url.search
(search carries the leading question mark or is empty, as in the platform URL). -/
structure Url where
  pathname : String
  search : String
  deriving DecidableEq, Repr

/-- The inbound request fields the handlers inspect: method, URL components and
the two headers they read (Range, Referer). -/
structure Request where
  method : String
  pathname : String
  search : String
  rangeHeader : Option String := none
  referer : Option String := none
  deriving DecidableEq, Repr

/-- A response: status, body (none models a null body) and headers.  The body is
a String of content; stream duplication by tee is modelled as sharing content. -/
structure Response where
  status : Nat
  body : Option String
  headers : Headers
  deriving DecidableEq, Repr

/-- The Request object used as a cache key: its URL, method and headers.  Two
keys address the same cache slot exactly when they are equal. -/
structure CacheKeyReq where
  url : Url
  method : String
  headers : Headers
  deriving DecidableEq, Repr

/-- A call observed by the origin collaborator: target URL, method, headers. -/
structure OriginCall where
  url : Url
  method : String
  headers : Headers
  deriving DecidableEq, Repr

/-- The outcome of one handler run: the client response, the pending cache write
that waitUntil detaches from the response (none when no write is scheduled), and
the number of origin invocations performed. -/
structure HandlerResult where
  response : Response
  cacheWrite : Option (CacheKeyReq × Response)
  originCalls : Nat
  deriving DecidableEq, Repr

/-- Response.ok of the fetch API: status in the 200..299 range. -/
def respOk (s : Nat) : Bool := decide (200 ≤ s ∧ s ≤ 299)

/-! ## part_000: "v4 Production Ready" handler (src/unnamed/part_000) -/

def ORIGIN_URL : String := "https://webr00t.global.ssl.fastly.net"

def STABLE_USER_AGENT : String :=
  "Mozilla/5.0 (Windows NT 10.0; Win64; x64) AppleWebKit/537.36 (KHTML, like Gecko) Chrome/124.0.0.0 Safari/537.36"

/-- str.endsWith(suffix) of JavaScript, computed on the character list. -/
def endsWithStr (s suffix : String) : Bool := suffix.data.isSuffixOf s.data

/-- str.toLowerCase() of JavaScript, computed on the character list. -/
def toLowerStr (s : String) : String := String.mk (s.data.map Char.toLower)

/-- url.pathname.endsWith('.m3u8')  (part_000 line 26). -/
def isPlaylist (u : Url) : Bool := endsWithStr u.pathname ".m3u8"

/-- cacheTtl = isPlaylist ? 2 : 31536000  (part_000 line 28). -/
def part000CacheTtl (u : Url) : Nat := if isPlaylist u then 2 else 31536000

/-- Cache key normalization (part_000 lines 36-42): for non-playlists the query
string is erased from the key URL. -/
def part000CacheKeyUrl (u : Url) : Url :=
  if isPlaylist u then u else { u with search := "" }

/-- new Request(cacheKeyUrl.toString(), \x7b method: 'GET', headers: \x7b\x7d \x7d)
(part_000 lines 44-47). -/
def part000CacheKey (u : Url) : CacheKeyReq :=
  { url := part000CacheKeyUrl u, method := "GET", headers := [] }

/-- Origin request headers (part_000 lines 66-75): fixed User-Agent, Referer and
Connection, plus Range forwarded when present on the inbound request. -/
def part000OriginHeaders (r : Request) : Headers :=
  let base := setH "Connection" "keep-alive"
    (setH "Referer" ORIGIN_URL (setH "User-Agent" STABLE_USER_AGENT []))
  match r.rangeHeader with
  | some rv => setH "Range" rv base
  | none => base

/-- The URL given to fetch on the miss path (part_000 line 77): origin base plus
the original pathname plus the original, un-normalized query string. -/
def originFetchUrl (u : Url) : String := ORIGIN_URL ++ u.pathname ++ u.search

/-- The origin invocation part_000 makes on a miss (lines 77-85). -/
def part000OriginCall (r : Request) : OriginCall :=
  { url := { pathname := r.pathname, search := r.search }, method := r.method,
    headers := part000OriginHeaders r }

/-- Headers deleted from the origin response (part_000 line 91). -/
def part000StripHeaders : List String :=
  ["set-cookie", "via", "server", "x-powered-by", "cf-cache-status", "cf-ray", "age"]

/-- Cache-Control set on the outbound response (part_000 line 95). -/
def part000CacheControl (u : Url) : String :=
  "public, max-age=" ++ toString (part000CacheTtl u) ++
    (if isPlaylist u then ", must-revalidate" else ", immutable")

/-- Cache hit path of part_000 (lines 51-64): body and status come from the
stored response, CF-Cache-Status is set to HIT, a debug header is added and the
CORS headers are written over the stored ones. -/
def part000HitResponse (stored : Response) : Response :=
  let nh := setCors corsHeaders
    (setH "X-Simulated-Users" "50k-Ready" (setH "CF-Cache-Status" "HIT" stored.headers))
  { status := stored.status, body := stored.body, headers := nh }

/-- Miss path of part_000 after the origin responded (lines 87-125): strip
headers, add CORS and Cache-Control; non-ok responses are returned uncached; a
null body returns a bodyless 200; otherwise the body is teed and a cache write
is scheduled exactly when the origin status is 200. -/
def part000MissResult (u : Url) (key : CacheKeyReq) (oresp : Response) :
    Response × Option (CacheKeyReq × Response) :=
  let rh := setH "Cache-Control" (part000CacheControl u)
    (setCors corsHeaders (part000StripHeaders.foldl (fun acc k => delH k acc) oresp.headers))
  if !(respOk oresp.status) then
    ({ status := oresp.status, body := oresp.body, headers := rh }, none)
  else
    match oresp.body with
    | none => ({ status := 200, body := none, headers := rh }, none)
    | some b =>
        let write :=
          if oresp.status == 200 then
            some (key, { status := oresp.status, body := some b,
                         headers := setH "Cache-Control"
                           ("public, max-age=" ++ toString (part000CacheTtl u)) rh })
          else none
        ({ status := oresp.status, body := some b, headers := rh }, write)

/-- The part_000 onRequest handler (whole file), as a function of the cache
contents, the origin collaborator and the request. -/
def part000OnRequest (cache : CacheKeyReq → Option Response)
    (origin : OriginCall → Response) (r : Request) : HandlerResult :=
  let u : Url := { pathname := r.pathname, search := r.search }
  if r.method == "OPTIONS" then
    { response := { status := 204, body := none, headers := corsHeaders },
      cacheWrite := none, originCalls := 0 }
  else if r.method != "GET" && r.method != "HEAD" then
    { response := { status := 405, body := some "Method Not Allowed", headers := corsHeaders },
      cacheWrite := none, originCalls := 0 }
  else
    let key := part000CacheKey u
    match cache key with
    | some stored =>
        { response := part000HitResponse stored, cacheWrite := none, originCalls := 0 }
    | none =>
        let oresp := origin (part000OriginCall r)
        let mr := part000MissResult u key oresp
        { response := mr.1, cacheWrite := mr.2, originCalls := 1 }

/-- Top-level catch of part_000 (lines 127-129): 500 with a JSON body and the
CORS headers. -/
def part000ErrorResponse (msg : String) : Response :=
  { status := 500,
    body := some ("\x7b\"error\":\"Proxy Error\",\"detail\":\"" ++ msg ++ "\"\x7d"),
    headers := corsHeaders }

/-! ## functions/_middleware.js: retrying handler -/

def MAX_RETRIES : Nat := 3

/-- One attempt as the origin stub sees it: either an HTTP response or a
network-level failure that makes fetch throw. -/
inductive Attempt where
  | response (resp : Response)
  | netfail (msg : String)
  deriving DecidableEq, Repr

/-- An attempt lands in the catch block exactly when fetch threw (network
failure) or the handler threw on a 5xx status (_middleware.js lines 167-170). -/
def attemptFails : Attempt → Bool
  | .response r => decide (500 ≤ r.status)
  | .netfail _ => true

/-- The error recorded in lastError for a failed attempt. -/
def attemptError : Attempt → String
  | .response r => "Origin status " ++ toString r.status
  | .netfail m => m

/-- setTimeout duration at loop index i: 100 * Math.pow(2, i)
(_middleware.js line 176). -/
def backoffDelay (i : Nat) : Nat := 100 * 2 ^ i

/-- Trace of one fetchWithRetry invocation: the settled outcome (ok response or
the thrown lastError message), the number of origin calls made, and the executed
sleep durations in order. -/
structure RetryResult where
  outcome : Except String Response
  calls : Nat
  delays : List Nat
  deriving Repr

/-- The retry loop of fetchWithRetry (_middleware.js lines 159-181), indexed by
remaining fuel MAX_RETRIES - i.  A response with status below 500 returns at
once; a 5xx response or a network failure records lastError, sleeps
backoffDelay i and continues; exhausted fuel surfaces lastError. -/
def retryGo (origin : Nat → Attempt) : Option String → Nat → Nat → RetryResult
  | lastError, _, 0 => { outcome := .error (lastError.getD ""), calls := 0, delays := [] }
  | _, i, fuel + 1 =>
      match origin i with
      | .response r =>
          if 500 ≤ r.status then
            let rest := retryGo origin (some ("Origin status " ++ toString r.status)) (i + 1) fuel
            { outcome := rest.outcome, calls := rest.calls + 1,
              delays := backoffDelay i :: rest.delays }
          else
            { outcome := .ok r, calls := 1, delays := [] }
      | .netfail m =>
          let rest := retryGo origin (some m) (i + 1) fuel
          { outcome := rest.outcome, calls := rest.calls + 1,
            delays := backoffDelay i :: rest.delays }

/-- fetchWithRetry (_middleware.js lines 140-182) as a function of the origin
stub, which maps the attempt index to that attempt's result. -/
def fetchWithRetry (origin : Nat → Attempt) : RetryResult :=
  retryGo origin none 0 MAX_RETRIES

/-- The headers the original request carries in this model (Range and Referer
are the only inbound headers the handlers read). -/
def requestHeaders (r : Request) : Headers :=
  (match r.rangeHeader with | some rv => [("Range", rv)] | none => []) ++
  (match r.referer with | some rf => [("Referer", rf)] | none => [])

/-- new Request(cacheKeyUrl.toString(), request) (_middleware.js line 50): the
key keeps the full URL including the query string and copies the original
request's method and headers — Range included. -/
def middlewareCacheKey (r : Request) : CacheKeyReq :=
  { url := { pathname := r.pathname, search := r.search }, method := r.method,
    headers := requestHeaders r }

/-- Response header manipulation on the middleware miss path
(_middleware.js lines 73-92). -/
def middlewareResponseHeaders (r : Request) (oh : Headers) : Headers :=
  let h1 := delH "via" (delH "server" (delH "set-cookie" oh))
  let h2 := setH "Content-Type" "image/jpeg"
    (setH "Access-Control-Allow-Origin" "*"
      (setH "Cache-Control" "public, max-age=300, s-maxage=31536000" h1))
  let h3 :=
    if (getH "ETag" h2).isNone then
      setH "ETag" ("\"" ++ r.pathname ++ "-" ++ ((getH "content-length" h2).getD "0") ++ "\"") h2
    else h2
  setH "CF-Cache-Status" "MISS" h3

/-- The functions/_middleware.js onRequest handler.  On a cache hit the source
computes newHeaders with CF-Cache-Status set to HIT but then executes
return response — the stored response object is returned unchanged, so the
model returns the stored response as is (lines 55-62). -/
def middlewareOnRequest (cache : CacheKeyReq → Option Response)
    (origin : Nat → Attempt) (r : Request) : HandlerResult :=
  if r.method != "GET" && r.method != "HEAD" then
    { response := { status := 405, body := some "Method Not Allowed", headers := [] },
      cacheWrite := none, originCalls := 0 }
  else if r.pathname == "/health" || r.pathname == "/" then
    { response := { status := 200, body := some "OK", headers := [] },
      cacheWrite := none, originCalls := 0 }
  else if !(endsWithStr (toLowerStr r.pathname) ".jpg" || endsWithStr (toLowerStr r.pathname) ".jpeg") then
    { response := { status := 403, body := some "Forbidden Extension", headers := [] },
      cacheWrite := none, originCalls := 0 }
  else if (r.referer.getD "") == "" then
    { response := { status := 403, body := some "Referer Required", headers := [] },
      cacheWrite := none, originCalls := 0 }
  else
    let key := middlewareCacheKey r
    match cache key with
    | some stored =>
        { response := stored, cacheWrite := none, originCalls := 0 }
    | none =>
        let rr := fetchWithRetry origin
        match rr.outcome with
        | .error msg =>
            { response := { status := 502, body := some ("Proxy Error: " ++ msg), headers := [] },
              cacheWrite := none, originCalls := rr.calls }
        | .ok oresp =>
            if !(respOk oresp.status) then
              { response := oresp, cacheWrite := none, originCalls := rr.calls }
            else
              let rh := middlewareResponseHeaders r oresp.headers
              match oresp.body with
              | none =>
                  { response := { status := oresp.status, body := none, headers := rh },
                    cacheWrite := none, originCalls := rr.calls }
              | some b =>
                  let clientResp : Response := { status := oresp.status, body := some b, headers := rh }
                  let write := if oresp.status == 200 then some (key, clientResp) else none
                  { response := clientResp, cacheWrite := write, originCalls := rr.calls }

/-- Top-level catch of _middleware.js (lines 131-133): a bare 502 response with
the error message and no headers at all. -/
def middlewareErrorResponse (msg : String) : Response :=
  { status := 502, body := some ("Proxy Error: " ++ msg), headers := [] }

/-! ## performance-test.js lines 289-447: the "v2 Stable" handler -/

def v2CorsHeaders : Headers :=
  [("Access-Control-Allow-Origin", "*"),
   ("Access-Control-Allow-Methods", "GET, HEAD, OPTIONS"),
   ("Access-Control-Allow-Headers", "Content-Type, Range, User-Agent, X-Requested-With"),
   ("Access-Control-Expose-Headers", "Content-Length, Content-Range, ETag, Last-Modified"),
   ("Access-Control-Max-Age", "86400")]

/-- The v2 boundary checks (performance-test.js lines 309-332): OPTIONS
preflight first, then the method gate, then the health check; none when the
request proceeds to cache and origin logic. -/
def v2Dispatch (r : Request) : Option Response :=
  if r.method == "OPTIONS" then
    some { status := 204, body := none, headers := v2CorsHeaders }
  else if r.method != "GET" && r.method != "HEAD" then
    some { status := 405, body := some "Method Not Allowed", headers := v2CorsHeaders }
  else if r.pathname == "/health" || r.pathname == "/" then
    some { status := 200, body := some "OK", headers := v2CorsHeaders }
  else none

/-- v2 cache key (performance-test.js line 342):
new Request(url.toString(), request) — the full URL with the original request's
method and headers, as in _middleware.js line 50. -/
def v2CacheKey (r : Request) : CacheKeyReq :=
  { url := { pathname := r.pathname, search := r.search }, method := r.method,
    headers := requestHeaders r }

/-- v2 cache hit path (performance-test.js lines 347-359): CF-Cache-Status HIT
and the CORS headers rewritten, body and status from the stored response. -/
def v2HitResponse (stored : Response) : Response :=
  { status := stored.status, body := stored.body,
    headers := setCors v2CorsHeaders (setH "CF-Cache-Status" "HIT" stored.headers) }

/-- v2 cache check (performance-test.js lines 344-359): on a hit the handler
returns the refreshed response at once — zero origin invocations and no cache
write; on a miss it falls through to the origin fetch (none). -/
def v2CacheCheck (cache : CacheKeyReq → Option Response) (key : CacheKeyReq) :
    Option HandlerResult :=
  match cache key with
  | some stored =>
      some { response := v2HitResponse stored, cacheWrite := none, originCalls := 0 }
  | none => none

/-- v2 global catch (performance-test.js lines 440-446): 500 with the CORS
headers. -/
def v2ErrorResponse (msg : String) : Response :=
  { status := 500, body := some ("CDN Proxy Error: " ++ msg), headers := v2CorsHeaders }

/-! ## performance-test.js lines 449-689: the coalescing handler -/

/-- The v3 boundary checks (performance-test.js lines 475-512): method gate,
health check answering the body x, extension allow-list, referer requirement. -/
def v3Gate (r : Request) : Option Response :=
  if r.method != "GET" && r.method != "HEAD" then
    some { status := 405, body := some "Method not allowed", headers := [] }
  else if r.pathname == "/health" || r.pathname == "/" then
    some { status := 200, body := some "x",
           headers := [("Content-Type", "text/plain"), ("X-Powered-By", "Cloudflare-Pages-CDN")] }
  else if !(endsWithStr (toLowerStr r.pathname) ".jpg" || endsWithStr (toLowerStr r.pathname) ".jpeg") then
    some { status := 403, body := some "Forbidden",
           headers := [("Content-Type", "text/plain"), ("Cache-Control", "no-store")] }
  else if (r.referer.getD "") == "" then
    some { status := 403, body := some "Forbidden",
           headers := [("Content-Type", "text/plain"), ("Cache-Control", "no-store")] }
  else none

/-- v3 cache key (performance-test.js lines 514-519): the URL with method GET,
and the Range header copied into the key's headers when present. -/
def v3CacheKey (r : Request) : CacheKeyReq :=
  { url := { pathname := r.pathname, search := r.search }, method := "GET",
    headers := match r.rangeHeader with | some rv => [("range", rv)] | none => [] }

/-- url.toString() restricted to the components the handlers vary over; the
scheme and host are fixed, so two URLs of the proxy are equal exactly when
pathname and search are. -/
def urlString (u : Url) : String := u.pathname ++ u.search

/-- cacheKeyString = cacheKey.url + (rangeHeader or the empty string)
(performance-test.js line 543), the key of the in-flight registry. -/
def v3CacheKeyString (r : Request) : String :=
  urlString { pathname := r.pathname, search := r.search } ++ (r.rangeHeader.getD "")

/-- v3 cache hit path (performance-test.js lines 527-537): CF-Cache-Status HIT
on the stored headers, body and status unchanged. -/
def v3HitResponse (stored : Response) : Response :=
  { status := stored.status, body := stored.body,
    headers := setH "CF-Cache-Status" "HIT" stored.headers }

/-- v3 cache check (performance-test.js lines 524-537): on a hit the handler
returns the HIT response directly — zero origin invocations, the coalescing
block never runs, no cache write; on a miss it falls through (none). -/
def v3CacheCheck (cache : CacheKeyReq → Option Response) (key : CacheKeyReq) :
    Option HandlerResult :=
  match cache key with
  | some stored =>
      some { response := v3HitResponse stored, cacheWrite := none, originCalls := 0 }
  | none => none

/-- v3 global catch (performance-test.js lines 678-688): 500 without any CORS
header. -/
def v3ErrorResponse (msg : String) : Response :=
  { status := 500, body := some ("CDN Error: " ++ msg),
    headers := [("Content-Type", "text/plain"), ("X-Cache", "ERROR"), ("Cache-Control", "no-store")] }

/-- v3 processing of the settled origin response (performance-test.js lines
599-676): early error return unless the status is ok, 206 or 304; otherwise
fresh headers are built and a cache write of the new response is scheduled via
waitUntil exactly when the status is 200 or 206.  now stands for the clock
readings Date.now() and new Date().toUTCString(). -/
def v3Finish (now : String) (key : CacheKeyReq) (oresp : Response) :
    Response × Option (CacheKeyReq × Response) :=
  if !(respOk oresp.status) && oresp.status != 206 && oresp.status != 304 then
    ({ status := oresp.status, body := some ("Origin Error: " ++ toString oresp.status),
       headers := [("Content-Type", "text/plain"), ("X-Cache", "ERROR"),
                   ("Cache-Control", "no-store")] }, none)
  else
    let h0 : Headers := []
    let h1 := match getH "content-length" oresp.headers with
      | some cl => setH "Content-Length" cl h0
      | none => h0
    let h2 := match getH "content-range" oresp.headers with
      | some cr => setH "Content-Range" cr h1
      | none => h1
    let h3 :=
      if oresp.status == 200 || oresp.status == 206 then
        let ha := setH "Cache-Control" "public, max-age=300, s-maxage=3600" h2
        let hb := match getH "etag" oresp.headers with
          | some e => setH "ETag" e ha
          | none => setH "ETag" ("\"" ++ now ++ "\"") ha
        match getH "last-modified" oresp.headers with
          | some lm => setH "Last-Modified" lm hb
          | none => setH "Last-Modified" now hb
      else h2
    let h4 := setH "CF-Cache-Status" "MISS"
      (setH "Content-Type" "image/jpeg"
        (setH "Accept-Ranges" "bytes"
          (setH "Access-Control-Max-Age" "86400"
            (setH "Access-Control-Allow-Methods" "GET, HEAD, OPTIONS"
              (setH "Access-Control-Allow-Origin" "*" h3)))))
    let newResponse : Response := { status := oresp.status, body := oresp.body, headers := h4 }
    (newResponse,
      if oresp.status == 200 || oresp.status == 206 then some (key, newResponse) else none)

/-! ## The in-flight coalescer (performance-test.js lines 464-594)

The registry inflightRequests is a process-local Map.  JavaScript's
run-to-completion scheduling makes the get / create / set sequence of lines
544-594 atomic: there is no await between the lookup and the insertion, so a
request's visit to the registry is one step.  The finally handler of line
586-589 deletes the key when the shared fetch settles, which is a later step.
The system is therefore a sequence of atomic events: arrive k (a request that
missed the cache reaches the coalescing block for key k) and settle k (the
in-flight fetch for k settles and its finally handler runs). -/

structure CoalescerState where
  inflight : List String
  originLog : List String
  deriving DecidableEq, Repr

inductive CoEvent where
  | arrive (k : String)
  | settle (k : String)
  deriving DecidableEq, Repr

/-- One atomic step of the registry.  arrive k: if inflightRequests.get(k) is
present the request merely awaits the existing promise (state unchanged);
otherwise a new origin fetch is started (logged) and the key inserted.
settle k: the finally handler removes the key unconditionally. -/
def coStep (s : CoalescerState) : CoEvent → CoalescerState
  | .arrive k =>
      if k ∈ s.inflight then s
      else { inflight := k :: s.inflight, originLog := s.originLog ++ [k] }
  | .settle k => { inflight := s.inflight.erase k, originLog := s.originLog }

def coRun (s : CoalescerState) : List CoEvent → CoalescerState
  | [] => s
  | e :: es => coRun (coStep s e) es

def coInit : CoalescerState := { inflight := [], originLog := [] }

/-! ## Shared consume-once body of the coalesced fetch (performance-test.js
lines 596-676)

Every coalesced waiter awaits the same inflightPromise and receives the same
originResponse object, then executes new Response(originResponse.body, ...).
A ReadableStream body can be consumed once; the variant neither tees nor clones
it before sharing. -/

/-- Reading a single-consumption stream: the first read yields the content and
leaves the stream disturbed; later reads obtain nothing. -/
def readOnce : Option String → Option String × Option String
  | some c => (some c, none)
  | none => (none, none)

/-- The n coalesced waiters in scheduling order, each wrapping the shared
origin response: every waiter sees the shared status, and its client response
carries whatever the shared single-consumption stream still yields. -/
def v3WaiterResults (st : Nat) : Nat → Option String → List (Nat × Option String)
  | 0, _ => []
  | n + 1, stream =>
      let rd := readOnce stream
      (st, rd.1) :: v3WaiterResults st n rd.2

/-! ## Theorems -/

/-- A failing attempt is a response with a 5xx status or a network failure. -/
theorem attempt_shape (origin : Nat → Attempt) (k : Nat)
    (hk : attemptFails (origin k) = true) :
    (∃ r, origin k = Attempt.response r ∧ 500 ≤ r.status) ∨
      (∃ m, origin k = Attempt.netfail m) := by
  cases h : origin k with
  | response r =>
      refine Or.inl ⟨r, rfl, ?_⟩
      rw [h] at hk
      simpa [attemptFails] using hk
  | netfail m => exact Or.inr ⟨m, rfl⟩

/-- A non-failing attempt is a response with status below 500. -/
theorem attempt_ok_shape (origin : Nat → Attempt) (k : Nat)
    (hk : ¬ attemptFails (origin k) = true) :
    ∃ r, origin k = Attempt.response r ∧ r.status < 500 := by
  cases h : origin k with
  | response r =>
      refine ⟨r, rfl, ?_⟩
      rw [h] at hk
      by_contra hge
      exact hk (by simpa [attemptFails] using Nat.le_of_not_lt hge)
  | netfail m =>
      rw [h] at hk
      exact absurd rfl hk

/-- Exhaustive evaluation of fetchWithRetry: the first attempt with a sub-500
response wins, every failed attempt sleeps its backoff, and three failures
surface the last error. -/
theorem fetchWithRetry_cases (origin : Nat → Attempt) :
    (∃ r, origin 0 = Attempt.response r ∧ r.status < 500 ∧
        fetchWithRetry origin = { outcome := .ok r, calls := 1, delays := [] })
  ∨ (attemptFails (origin 0) = true ∧
      ∃ r, origin 1 = Attempt.response r ∧ r.status < 500 ∧
        fetchWithRetry origin = { outcome := .ok r, calls := 2, delays := [100] })
  ∨ (attemptFails (origin 0) = true ∧ attemptFails (origin 1) = true ∧
      ∃ r, origin 2 = Attempt.response r ∧ r.status < 500 ∧
        fetchWithRetry origin = { outcome := .ok r, calls := 3, delays := [100, 200] })
  ∨ (attemptFails (origin 0) = true ∧ attemptFails (origin 1) = true ∧
      attemptFails (origin 2) = true ∧
        fetchWithRetry origin =
          { outcome := .error (attemptError (origin 2)), calls := 3,
            delays := [100, 200, 400] }) := by
  by_cases hf0 : attemptFails (origin 0) = true
  · by_cases hf1 : attemptFails (origin 1) = true
    · by_cases hf2 : attemptFails (origin 2) = true
      · refine Or.inr (Or.inr (Or.inr ⟨hf0, hf1, hf2, ?_⟩))
        rcases attempt_shape origin 0 hf0 with ⟨r0, h0, s0⟩ | ⟨m0, h0⟩ <;>
          rcases attempt_shape origin 1 hf1 with ⟨r1, h1, s1⟩ | ⟨m1, h1⟩ <;>
          rcases attempt_shape origin 2 hf2 with ⟨r2, h2, s2⟩ | ⟨m2, h2⟩ <;>
          simp [fetchWithRetry, MAX_RETRIES, retryGo, h0, h1, h2,
            attemptError, backoffDelay, *]
      · obtain ⟨r2, h2, s2⟩ := attempt_ok_shape origin 2 hf2
        refine Or.inr (Or.inr (Or.inl ⟨hf0, hf1, r2, h2, s2, ?_⟩))
        have s2n : ¬ 500 ≤ r2.status := Nat.not_le.mpr s2
        rcases attempt_shape origin 0 hf0 with ⟨r0, h0, s0⟩ | ⟨m0, h0⟩ <;>
          rcases attempt_shape origin 1 hf1 with ⟨r1, h1, s1⟩ | ⟨m1, h1⟩ <;>
          simp [fetchWithRetry, MAX_RETRIES, retryGo, h0, h1, h2, s2n,
            backoffDelay, *]
    · obtain ⟨r1, h1, s1⟩ := attempt_ok_shape origin 1 hf1
      refine Or.inr (Or.inl ⟨hf0, r1, h1, s1, ?_⟩)
      have s1n : ¬ 500 ≤ r1.status := Nat.not_le.mpr s1
      rcases attempt_shape origin 0 hf0 with ⟨r0, h0, s0⟩ | ⟨m0, h0⟩ <;>
        simp [fetchWithRetry, MAX_RETRIES, retryGo, h0, h1, s1n,
          backoffDelay, *]
  · obtain ⟨r0, h0, s0⟩ := attempt_ok_shape origin 0 hf0
    refine Or.inl ⟨r0, h0, s0, ?_⟩
    simp [fetchWithRetry, MAX_RETRIES, retryGo, h0, Nat.not_le.mpr s0]

/-- C3: fetchWithRetry performs at most MAX_RETRIES (3) attempts; attempt j is
made exactly when j < MAX_RETRIES and every earlier attempt returned a 5xx
status or raised a network failure, so a further attempt is made if and only if
the previous one failed; a response below 500 (for example a 404) to the first
attempt is returned with exactly one origin call; the executed delays follow
the exponential schedule backoffDelay i = 100 * 2 ^ i (100ms, 200ms, 400ms);
and when every attempt fails, the last recorded error is surfaced to the caller
as the terminal outcome. -/
theorem fetchWithRetry_policy (origin : Nat → Attempt) :
    (fetchWithRetry origin).calls ≤ MAX_RETRIES
  ∧ (∀ j, j < (fetchWithRetry origin).calls ↔
        (j < MAX_RETRIES ∧ ∀ k, k < j → attemptFails (origin k) = true))
  ∧ (∀ r : Response, origin 0 = Attempt.response r → r.status < 500 →
        (fetchWithRetry origin).outcome = .ok r ∧ (fetchWithRetry origin).calls = 1)
  ∧ (fetchWithRetry origin).delays =
      (List.range (fetchWithRetry origin).delays.length).map backoffDelay
  ∧ ((∀ k, k < MAX_RETRIES → attemptFails (origin k) = true) →
        (fetchWithRetry origin).outcome
          = .error (attemptError (origin (MAX_RETRIES - 1)))) := by
  have hMR : MAX_RETRIES = 3 := rfl
  rw [hMR]
  rcases fetchWithRetry_cases origin with
      ⟨r, h0, s0, hR⟩ | ⟨hf0, r, h1, s1, hR⟩ | ⟨hf0, hf1, r, h2, s2, hR⟩ |
      ⟨hf0, hf1, hf2, hR⟩
  · have hnf : attemptFails (origin 0) = false := by
      simp [attemptFails, h0, Nat.not_le.mpr s0]
    refine ⟨by simp [hR], ?_, ?_, by simp [hR], ?_⟩
    · intro j
      constructor
      · intro hj
        simp [hR] at hj
        refine ⟨by omega, ?_⟩
        intro k hk
        omega
      · rintro ⟨hj, hall⟩
        simp [hR]
        by_contra hge
        have := hall 0 (by omega)
        rw [hnf] at this
        exact absurd this (by simp)
    · intro r' h0' _
      rw [h0] at h0'
      cases h0'
      simp [hR]
    · intro hall
      have := hall 0 (by omega)
      rw [hnf] at this
      exact absurd this (by simp)
  · have hnf : attemptFails (origin 1) = false := by
      simp [attemptFails, h1, Nat.not_le.mpr s1]
    refine ⟨by simp [hR], ?_, ?_, by simp [hR]; decide, ?_⟩
    · intro j
      constructor
      · intro hj
        simp [hR] at hj
        refine ⟨by omega, ?_⟩
        intro k hk
        have : k = 0 := by omega
        rw [this]
        exact hf0
      · rintro ⟨hj, hall⟩
        simp [hR]
        by_contra hge
        have := hall 1 (by omega)
        rw [hnf] at this
        exact absurd this (by simp)
    · intro r' h0' s0'
      rw [h0'] at hf0
      have : 500 ≤ r'.status := by simpa [attemptFails] using hf0
      omega
    · intro hall
      have := hall 1 (by omega)
      rw [hnf] at this
      exact absurd this (by simp)
  · have hnf : attemptFails (origin 2) = false := by
      simp [attemptFails, h2, Nat.not_le.mpr s2]
    refine ⟨by simp [hR], ?_, ?_, by simp [hR]; decide, ?_⟩
    · intro j
      constructor
      · intro hj
        simp [hR] at hj
        refine ⟨by omega, ?_⟩
        intro k hk
        have : k = 0 ∨ k = 1 := by omega
        rcases this with h | h <;> rw [h]
        · exact hf0
        · exact hf1
      · rintro ⟨hj, hall⟩
        simp [hR]
        by_contra hge
        have := hall 2 (by omega)
        rw [hnf] at this
        exact absurd this (by simp)
    · intro r' h0' s0'
      rw [h0'] at hf0
      have : 500 ≤ r'.status := by simpa [attemptFails] using hf0
      omega
    · intro hall
      have := hall 2 (by omega)
      rw [hnf] at this
      exact absurd this (by simp)
  · refine ⟨by simp [hR], ?_, ?_, by simp [hR]; decide, ?_⟩
    · intro j
      constructor
      · intro hj
        simp [hR] at hj
        refine ⟨by omega, ?_⟩
        intro k hk
        have : k = 0 ∨ k = 1 ∨ k = 2 := by omega
        rcases this with h | h | h <;> rw [h]
        · exact hf0
        · exact hf1
        · exact hf2
      · rintro ⟨hj, _⟩
        simp [hR]
        omega
    · intro r' h0' s0'
      rw [h0'] at hf0
      have : 500 ≤ r'.status := by simpa [attemptFails] using hf0
      omega
    · intro _
      simp [hR]

/-- Witness for C3: a 404 on the first attempt is returned at once with exactly
one origin call. -/
theorem fetchWithRetry_policy_witness :
    (fetchWithRetry (fun _ => Attempt.response { status := 404, body := some "nf", headers := [] })).outcome
        = .ok { status := 404, body := some "nf", headers := [] }
  ∧ (fetchWithRetry (fun _ => Attempt.response { status := 404, body := some "nf", headers := [] })).calls = 1 :=
  (fetchWithRetry_policy _).2.2.1 _ rfl (by decide)

/-- C10: the backoff sleep runs after every failed attempt, the final one
included: when all MAX_RETRIES attempts fail, the executed delay list is
[100, 200, 400] — of length MAX_RETRIES, not MAX_RETRIES - 1 — and the last
error is surfaced only after that final 400ms sleep has run. -/
theorem fetchWithRetry_sleeps_after_final_failure (origin : Nat → Attempt)
    (h : ∀ k, k < MAX_RETRIES → attemptFails (origin k) = true) :
    (fetchWithRetry origin).delays = [100, 200, 400]
  ∧ (fetchWithRetry origin).delays.length = MAX_RETRIES
  ∧ (fetchWithRetry origin).outcome = .error (attemptError (origin 2)) := by
  rcases fetchWithRetry_cases origin with
      ⟨r, h0, s0, hR⟩ | ⟨hf0, r, h1, s1, hR⟩ | ⟨hf0, hf1, r, h2, s2, hR⟩ |
      ⟨hf0, hf1, hf2, hR⟩
  · have hc := h 0 (by decide)
    rw [h0] at hc
    have : 500 ≤ r.status := by simpa [attemptFails] using hc
    omega
  · have hc := h 1 (by decide)
    rw [h1] at hc
    have : 500 ≤ r.status := by simpa [attemptFails] using hc
    omega
  · have hc := h 2 (by decide)
    rw [h2] at hc
    have : 500 ≤ r.status := by simpa [attemptFails] using hc
    omega
  · exact ⟨by simp [hR], by simp [hR]; rfl, by simp [hR]⟩

/-- Witness for C10: an origin that always raises a network failure yields the
three delays and the surfaced last error. -/
theorem fetchWithRetry_sleeps_after_final_failure_witness :
    (fetchWithRetry (fun _ => Attempt.netfail "ECONNRESET")).delays = [100, 200, 400]
  ∧ (fetchWithRetry (fun _ => Attempt.netfail "ECONNRESET")).delays.length = MAX_RETRIES
  ∧ (fetchWithRetry (fun _ => Attempt.netfail "ECONNRESET")).outcome = .error "ECONNRESET" :=
  fetchWithRetry_sleeps_after_final_failure _ (fun _ _ => rfl)

theorem coStep_nodup (s : CoalescerState) (e : CoEvent)
    (h : s.inflight.Nodup) : (coStep s e).inflight.Nodup := by
  cases e with
  | arrive k =>
      by_cases hk : k ∈ s.inflight
      · simpa [coStep, hk] using h
      · simp [coStep, hk]
        exact h
  | settle k => exact h.erase k

theorem coRun_nodup (es : List CoEvent) (s : CoalescerState)
    (h : s.inflight.Nodup) : (coRun s es).inflight.Nodup := by
  induction es generalizing s with
  | nil => exact h
  | cons e es ih => exact ih _ (coStep_nodup s e h)

/-- While a key is in flight and no settle event for it occurs, no further
origin fetch for it is logged and it stays in the registry. -/
theorem coRun_stable (k : String) (es : List CoEvent) (s : CoalescerState)
    (hmem : k ∈ s.inflight) (hns : ∀ e ∈ es, e ≠ CoEvent.settle k) :
    (coRun s es).originLog.count k = s.originLog.count k
  ∧ k ∈ (coRun s es).inflight := by
  induction es generalizing s with
  | nil => exact ⟨rfl, hmem⟩
  | cons e es ih =>
      have hns' : ∀ e' ∈ es, e' ≠ CoEvent.settle k :=
        fun e' he' => hns e' (List.mem_cons_of_mem _ he')
      cases e with
      | arrive q =>
          by_cases hq : q ∈ s.inflight
          · simpa [coRun, coStep, hq] using ih _ hmem hns'
          · have hqk : q ≠ k := fun h => hq (h ▸ hmem)
            have hbeq : (k == q) = false := beq_eq_false_iff_ne.mpr (fun h => hqk h.symm)
            have step : coStep s (.arrive q) =
                { inflight := q :: s.inflight, originLog := s.originLog ++ [q] } := by
              simp [coStep, hq]
            obtain ⟨hcount, hmem'⟩ :=
              ih ⟨q :: s.inflight, s.originLog ++ [q]⟩
                (List.mem_cons_of_mem _ hmem) hns'
            refine ⟨?_, ?_⟩
            · rw [coRun, step, hcount]
              simp [List.count_append, List.count_cons, hbeq, hqk]
            · rw [coRun, step]
              exact hmem'
      | settle q =>
          have hqk : q ≠ k := by
            intro h
            exact (hns _ (List.mem_cons_self _ _)) (by rw [h])
          have hmem' : k ∈ s.inflight.erase q :=
            (List.mem_erase_of_ne (fun h => hqk h.symm)).mpr hmem
          simpa [coRun, coStep] using ih _ hmem' hns'

/-- C1: the in-flight registry of the coalescing variant is single-flight.
(1) Starting from the empty registry, at most one entry exists per key at any
instant (the registry never holds duplicates).  (2) A request arriving for a key
already in flight changes nothing: it merely awaits the existing entry.  (3) A
request arriving for an absent key starts exactly one new origin fetch and
registers the key.  (4) A settle event removes the key from the registry.
(5) Exactly-once: for any trace of events in which a key k is absent at the
start, is never settled (its fetch is still pending), and receives N, with
N at least 1, concurrent arrivals — the cache having missed for each — the
origin is invoked exactly one more time for k than before. -/
theorem coalescer_single_flight :
    (∀ es : List CoEvent, (coRun coInit es).inflight.Nodup)
  ∧ (∀ s k, k ∈ s.inflight → coStep s (CoEvent.arrive k) = s)
  ∧ (∀ s k, k ∉ s.inflight →
        (coStep s (CoEvent.arrive k)).originLog = s.originLog ++ [k]
      ∧ k ∈ (coStep s (CoEvent.arrive k)).inflight)
  ∧ (∀ s k, s.inflight.Nodup → k ∉ (coStep s (CoEvent.settle k)).inflight)
  ∧ (∀ (s : CoalescerState) (es : List CoEvent) (k : String),
        k ∉ s.inflight → (∀ e ∈ es, e ≠ CoEvent.settle k) →
        1 ≤ es.count (CoEvent.arrive k) →
        (coRun s es).originLog.count k = s.originLog.count k + 1) := by
  refine ⟨?_, ?_, ?_, ?_, ?_⟩
  · intro es
    exact coRun_nodup es coInit (by simp [coInit])
  · intro s k h
    simp [coStep, h]
  · intro s k h
    simp [coStep, h]
  · intro s k hnd hmem
    simp only [coStep] at hmem
    exact (List.Nodup.mem_erase_iff hnd).mp hmem |>.1 rfl
  · intro s es k
    induction es generalizing s with
    | nil =>
        intro _ _ hcount
        simp at hcount
    | cons e es ih =>
        intro habs hns hcount
        have hns' : ∀ e' ∈ es, e' ≠ CoEvent.settle k :=
          fun e' he' => hns e' (List.mem_cons_of_mem _ he')
        cases e with
        | arrive q =>
            by_cases hqk : q = k
            · subst hqk
              have step : coStep s (.arrive q) =
                  { inflight := q :: s.inflight, originLog := s.originLog ++ [q] } := by
                simp [coStep, habs]
              obtain ⟨hcount', _⟩ :=
                coRun_stable q es ⟨q :: s.inflight, s.originLog ++ [q]⟩
                  (List.mem_cons_self _ _) hns'
              rw [coRun, step, hcount']
              simp [List.count_append]
            · have hbeq : (k == q) = false :=
                beq_eq_false_iff_ne.mpr (fun h => hqk h.symm)
              have hcount' : 1 ≤ es.count (CoEvent.arrive k) := by
                have : (CoEvent.arrive q == CoEvent.arrive k) = false := by
                  simp [hqk]
                simpa [List.count_cons, this] using hcount
              by_cases hq : q ∈ s.inflight
              · have step : coStep s (.arrive q) = s := by simp [coStep, hq]
                rw [coRun, step]
                exact ih s habs hns' hcount'
              · have step : coStep s (.arrive q) =
                    { inflight := q :: s.inflight, originLog := s.originLog ++ [q] } := by
                  simp [coStep, hq]
                have habs' : k ∉ q :: s.inflight := by
                  intro hmem
                  rcases List.mem_cons.mp hmem with h | h
                  · exact hqk h.symm
                  · exact habs h
                rw [coRun, step,
                  ih ⟨q :: s.inflight, s.originLog ++ [q]⟩ habs' hns' hcount']
                simp [List.count_append, List.count_cons, hbeq, hqk]
        | settle q =>
            have hqk : q ≠ k := by
              intro h
              exact (hns _ (List.mem_cons_self _ _)) (by rw [h])
            have habs' : k ∉ s.inflight.erase q :=
              fun hmem => habs (List.mem_of_mem_erase hmem)
            have hcount' : 1 ≤ es.count (CoEvent.arrive k) := by
              have : (CoEvent.settle q == CoEvent.arrive k) = false := by simp
              simpa [List.count_cons, this] using hcount
            have step : coStep s (.settle q) =
                ⟨s.inflight.erase q, s.originLog⟩ := by
              simp [coStep]
            rw [coRun, step]
            exact ih ⟨s.inflight.erase q, s.originLog⟩ habs' hns' hcount'

/-- Witness for C1: three concurrent arrivals for one uncached key, none
settled in between, put exactly one fetch for that key in the origin log. -/
theorem coalescer_single_flight_witness :
    (coRun coInit [CoEvent.arrive "/seg/1.jpg", CoEvent.arrive "/seg/1.jpg",
        CoEvent.arrive "/seg/1.jpg"]).originLog.count "/seg/1.jpg"
      = coInit.originLog.count "/seg/1.jpg" + 1 :=
  coalescer_single_flight.2.2.2.2 coInit _ "/seg/1.jpg"
    (by decide) (by decide) (by decide)

/-- C2 (code bug): the coalescing variant hands the same consume-once
originResponse.body to every coalesced waiter without splitting it, so with two
waiters and an origin response of status 200 and body SEGMENT, every waiter
observes the shared status but only the first receives the body content — the
waiters do not all receive the same body, contrary to the claim. -/
theorem coalesced_waiters_share_consume_once_body :
    v3WaiterResults 200 2 (some "SEGMENT") = [(200, some "SEGMENT"), (200, none)]
  ∧ (v3WaiterResults 200 2 (some "SEGMENT")).map Prod.snd
      ≠ [some "SEGMENT", some "SEGMENT"] := by
  constructor
  · rfl
  · decide

theorem string_append_cancel_left (a b c : String) (h : a ++ b = a ++ c) :
    b = c := by
  have hd : (a ++ b).data = (a ++ c).data := by rw [h]
  simp [String.data_append] at hd
  exact String.ext hd

/-- C4: cache-key normalization by resource class in part_000.  For a
segment-class URL (pathname not ending in .m3u8) the query string is dropped
from the cache key — two URLs with the same pathname get the same key — while
the URL handed to the origin fetch still carries the full query string, so
different query tokens still reach the origin.  For a manifest-class URL
(.m3u8) the query string is retained, so different tokens give different
keys. -/
theorem part000_cache_key_normalization :
    (∀ u1 u2 : Url, u1.pathname = u2.pathname → isPlaylist u1 = false →
        part000CacheKey u1 = part000CacheKey u2
      ∧ (u1.search ≠ u2.search → originFetchUrl u1 ≠ originFetchUrl u2))
  ∧ (∀ u1 u2 : Url, u1.pathname = u2.pathname → isPlaylist u1 = true →
        u1.search ≠ u2.search → part000CacheKey u1 ≠ part000CacheKey u2) := by
  constructor
  · intro u1 u2 hp hpl
    have hpl2 : isPlaylist u2 = false := by
      have he : isPlaylist u2 = isPlaylist u1 := by
        simp only [isPlaylist]
        rw [hp]
      rw [he, hpl]
    constructor
    · simp [part000CacheKey, part000CacheKeyUrl, hpl, hpl2, hp]
    · intro hs habs
      simp only [originFetchUrl] at habs
      rw [hp] at habs
      exact hs (string_append_cancel_left _ _ _ habs)
  · intro u1 u2 hp hpl hs heq
    have hpl2 : isPlaylist u2 = true := by
      have he : isPlaylist u2 = isPlaylist u1 := by
        simp only [isPlaylist]
        rw [hp]
      rw [he, hpl]
    simp [part000CacheKey, part000CacheKeyUrl, hpl, hpl2] at heq
    exact hs (by rw [heq])

/-- Witness for C4: two tokens for one segment share a key; two tokens for one
playlist do not. -/
theorem part000_cache_key_normalization_witness :
    part000CacheKey ⟨"/seg/00001.ts", "?token=A"⟩
      = part000CacheKey ⟨"/seg/00001.ts", "?token=B"⟩
  ∧ part000CacheKey ⟨"/live.m3u8", "?token=A"⟩
      ≠ part000CacheKey ⟨"/live.m3u8", "?token=B"⟩ :=
  ⟨(part000_cache_key_normalization.1 ⟨"/seg/00001.ts", "?token=A"⟩
      ⟨"/seg/00001.ts", "?token=B"⟩ rfl (by decide)).1,
   part000_cache_key_normalization.2 ⟨"/live.m3u8", "?token=A"⟩
      ⟨"/live.m3u8", "?token=B"⟩ rfl (by decide) (by decide)⟩

/-- C5 counterexample: in the coalescing variant (the cited
performance-test.js lines 514-519), two requests that differ only in their
Range header do NOT produce the same cache key: both the key Request and the
in-flight key string include the Range value. -/
theorem range_excluded_from_key_counterexample :
    v3CacheKey ⟨"GET", "/a.jpg", "", some "bytes=0-1", some "https://site.example/"⟩
      ≠ v3CacheKey ⟨"GET", "/a.jpg", "", some "bytes=2-3", some "https://site.example/"⟩
  ∧ v3CacheKeyString ⟨"GET", "/a.jpg", "", some "bytes=0-1", some "https://site.example/"⟩
      ≠ v3CacheKeyString ⟨"GET", "/a.jpg", "", some "bytes=2-3", some "https://site.example/"⟩ := by
  decide

/-- C5 amended: Range is excluded from the cache key only in part_000, whose
key carries an empty header set and depends on the URL alone; in the coalescing
variant the key includes the Range header and the in-flight key string appends
the Range value, so requests differing only in Range produce different keys
there; and the _middleware variant's key copies the request headers, Range
included. -/
theorem range_in_cache_key_by_variant :
    (∀ u : Url, (part000CacheKey u).headers = [])
  ∧ (∀ r1 r2 : Request, r1.pathname = r2.pathname → r1.search = r2.search →
        part000CacheKey ⟨r1.pathname, r1.search⟩
          = part000CacheKey ⟨r2.pathname, r2.search⟩)
  ∧ (∀ (r : Request) (v1 v2 : String), v1 ≠ v2 →
        v3CacheKey { r with rangeHeader := some v1 }
          ≠ v3CacheKey { r with rangeHeader := some v2 }
      ∧ v3CacheKeyString { r with rangeHeader := some v1 }
          ≠ v3CacheKeyString { r with rangeHeader := some v2 })
  ∧ (∀ (r : Request) (v : String),
        getH "Range" (middlewareCacheKey { r with rangeHeader := some v }).headers
          = some v) := by
  refine ⟨?_, ?_, ?_, ?_⟩
  · intro u
    rfl
  · intro r1 r2 hp hs
    rw [hp, hs]
  · intro r v1 v2 hne
    constructor
    · intro heq
      simp [v3CacheKey] at heq
      exact hne heq
    · intro heq
      simp only [v3CacheKeyString] at heq
      exact hne (string_append_cancel_left _ _ _ heq)
  · intro r v
    cases hr : r.referer <;>
      simp [middlewareCacheKey, requestHeaders, getH, hr]

/-- Witness for C5's amended statement: a concrete pair of requests differing
only in Range keeps one part_000 key but two coalescing-variant keys. -/
theorem range_in_cache_key_by_variant_witness :
    v3CacheKey ⟨"GET", "/b.jpg", "?t=1", some "bytes=0-99", some "https://site.example/"⟩
      ≠ v3CacheKey ⟨"GET", "/b.jpg", "?t=1", some "bytes=100-199", some "https://site.example/"⟩
  ∧ v3CacheKeyString ⟨"GET", "/b.jpg", "?t=1", some "bytes=0-99", some "https://site.example/"⟩
      ≠ v3CacheKeyString ⟨"GET", "/b.jpg", "?t=1", some "bytes=100-199", some "https://site.example/"⟩ :=
  range_in_cache_key_by_variant.2.2.1
    ⟨"GET", "/b.jpg", "?t=1", some "bytes=0-99", some "https://site.example/"⟩
    "bytes=0-99" "bytes=100-199" (by decide)

/-- A part_000 pending cache write carries the cache key and an entry with
status 200 and the origin body. -/
theorem part000MissResult_write_spec (u : Url) (key : CacheKeyReq) (oresp : Response)
    (kv : CacheKeyReq × Response) (h : (part000MissResult u key oresp).2 = some kv) :
    kv.1 = key ∧ kv.2.status = 200 ∧ kv.2.body = oresp.body := by
  simp only [part000MissResult] at h
  split at h
  · simp at h
  · split at h
    · simp at h
    · rename_i b hb
      split at h
      · rename_i hst
        have h200 : oresp.status = 200 := by simpa using hst
        simp only [Prod.snd] at h
        injection h with h'
        rw [← h']
        exact ⟨rfl, h200, hb.symm⟩
      · simp at h

/-- part_000 schedules no cache write when the origin response is not ok. -/
theorem part000MissResult_notok (u : Url) (key : CacheKeyReq) (oresp : Response)
    (h : respOk oresp.status = false) :
    (part000MissResult u key oresp).2 = none := by
  simp [part000MissResult, h]

/-- C6: a cache entry is written only from a successful origin result.  In
part_000 every scheduled write carries status 200; when the origin response is
not ok (4xx, 5xx), no write is scheduled; and a 200 response with a body does
schedule a write of the key and the teed body.  In the coalescing variant a
scheduled write has status 200 or 206, a 4xx/5xx origin response schedules
none, and a 200 or 206 response schedules one.  Both variants return the
pending write as data detached from the already-built client response,
modelling the waitUntil deferral after the response is committed. -/
theorem cache_write_policy :
    (∀ (cache : CacheKeyReq → Option Response) (origin : OriginCall → Response)
        (r : Request) (kv : CacheKeyReq × Response),
        (part000OnRequest cache origin r).cacheWrite = some kv → kv.2.status = 200)
  ∧ (∀ (cache : CacheKeyReq → Option Response) (origin : OriginCall → Response)
        (r : Request),
        respOk (origin (part000OriginCall r)).status = false →
        (part000OnRequest cache origin r).cacheWrite = none)
  ∧ (∀ (u : Url) (key : CacheKeyReq) (oresp : Response),
        oresp.status = 200 → oresp.body ≠ none →
        (part000MissResult u key oresp).2 ≠ none)
  ∧ (∀ (now : String) (key : CacheKeyReq) (oresp : Response)
        (kv : CacheKeyReq × Response),
        (v3Finish now key oresp).2 = some kv →
          kv.2.status = 200 ∨ kv.2.status = 206)
  ∧ (∀ (now : String) (key : CacheKeyReq) (oresp : Response),
        400 ≤ oresp.status → (v3Finish now key oresp).2 = none)
  ∧ (∀ (now : String) (key : CacheKeyReq) (oresp : Response),
        oresp.status = 200 ∨ oresp.status = 206 →
        (v3Finish now key oresp).2 ≠ none) := by
  refine ⟨?_, ?_, ?_, ?_, ?_, ?_⟩
  · intro cache origin r kv h
    simp only [part000OnRequest] at h
    split at h
    · simp at h
    · split at h
      · simp at h
      · split at h
        · simp at h
        · exact (part000MissResult_write_spec _ _ _ _ h).2.1
  · intro cache origin r hok
    simp only [part000OnRequest]
    split
    · rfl
    · split
      · rfl
      · split
        · rfl
        · exact part000MissResult_notok _ _ _ hok
  · intro u key oresp h200 hb
    have hok : respOk oresp.status = true := by
      simp [respOk, h200]
    cases hbody : oresp.body with
    | none => exact absurd hbody hb
    | some b => simp [part000MissResult, respOk, hok, hbody, h200]
  · intro now key oresp kv h
    simp only [v3Finish] at h
    split at h
    · simp at h
    · split at h
      case isTrue hc =>
          simp only [Option.some.injEq] at h
          have hst : oresp.status = 200 ∨ oresp.status = 206 := by
            rcases Bool.or_eq_true_iff.mp hc with h' | h'
            · exact Or.inl (by simpa using h')
            · exact Or.inr (by simpa using h')
          rw [← h]
          exact hst
      case isFalse => simp at h
  · intro now key oresp h400
    have hok : respOk oresp.status = false := by
      simp [respOk]
      omega
    have h206 : (oresp.status != 206) = true := by
      simp
      omega
    have h304 : (oresp.status != 304) = true := by
      simp
      omega
    simp [v3Finish, hok, h206, h304]
  · intro now key oresp hst
    have hok : respOk oresp.status = true := by
      rcases hst with h | h <;> simp [respOk, h]
    have hc : (oresp.status == 200 || oresp.status == 206) = true := by
      rcases hst with h | h <;> simp [h]
    simp [v3Finish, hok, hc]

/-- Witness for C6: a 200 origin response with a body schedules a write, and a
404 schedules none. -/
theorem cache_write_policy_witness :
    (part000MissResult ⟨"/s.ts", ""⟩ (part000CacheKey ⟨"/s.ts", ""⟩)
        ⟨200, some "SEG", []⟩).2 ≠ none
  ∧ (v3Finish "now" (part000CacheKey ⟨"/s.ts", ""⟩) ⟨404, some "nf", []⟩).2 = none :=
  ⟨cache_write_policy.2.2.1 ⟨"/s.ts", ""⟩ _ ⟨200, some "SEG", []⟩ rfl (by decide),
   cache_write_policy.2.2.2.2.1 "now" _ ⟨404, some "nf", []⟩ (by decide)⟩

/-- C7 counterexample: in functions/_middleware.js a cache hit returns the
stored response object unchanged — the computed newHeaders carrying
CF-Cache-Status HIT are discarded — so a stored entry (which the miss path
stored with CF-Cache-Status MISS) is served still saying MISS, with no origin
call. -/
theorem middleware_hit_no_refresh_counterexample :
    (middlewareOnRequest
        (fun k => if k = middlewareCacheKey ⟨"GET", "/a.jpg", "", none, some "https://s.example/"⟩
            then some ⟨200, some "IMG", [("CF-Cache-Status", "MISS")]⟩ else none)
        (fun _ => Attempt.netfail "unused")
        ⟨"GET", "/a.jpg", "", none, some "https://s.example/"⟩).response
      = ⟨200, some "IMG", [("CF-Cache-Status", "MISS")]⟩
  ∧ getH "CF-Cache-Status"
      (middlewareOnRequest
        (fun k => if k = middlewareCacheKey ⟨"GET", "/a.jpg", "", none, some "https://s.example/"⟩
            then some ⟨200, some "IMG", [("CF-Cache-Status", "MISS")]⟩ else none)
        (fun _ => Attempt.netfail "unused")
        ⟨"GET", "/a.jpg", "", none, some "https://s.example/"⟩).response.headers
      ≠ some "HIT"
  ∧ (middlewareOnRequest
        (fun k => if k = middlewareCacheKey ⟨"GET", "/a.jpg", "", none, some "https://s.example/"⟩
            then some ⟨200, some "IMG", [("CF-Cache-Status", "MISS")]⟩ else none)
        (fun _ => Attempt.netfail "unused")
        ⟨"GET", "/a.jpg", "", none, some "https://s.example/"⟩).originCalls = 0 := by
  decide

/-- C7 amended: on a cache hit no variant calls the origin (each hit path
returns straight from the cache check with zero origin invocations) and every
variant serves body and status unchanged from the stored entry; part_000 and
the v2 variant refresh the headers — CF-Cache-Status HIT and the CORS headers
reapplied — and the coalescing variant sets CF-Cache-Status HIT; but
functions/_middleware.js returns the stored response without any header
refresh. -/
theorem hit_path_by_variant :
    (∀ (cache : CacheKeyReq → Option Response) (origin : OriginCall → Response)
        (r : Request) (stored : Response),
        (r.method = "GET" ∨ r.method = "HEAD") →
        cache (part000CacheKey ⟨r.pathname, r.search⟩) = some stored →
          (part000OnRequest cache origin r).response.status = stored.status
        ∧ (part000OnRequest cache origin r).response.body = stored.body
        ∧ getH "CF-Cache-Status"
            (part000OnRequest cache origin r).response.headers = some "HIT"
        ∧ getH "Access-Control-Allow-Origin"
            (part000OnRequest cache origin r).response.headers = some "*"
        ∧ (part000OnRequest cache origin r).originCalls = 0)
  ∧ (∀ (cache : CacheKeyReq → Option Response) (origin : Nat → Attempt)
        (r : Request) (stored : Response) (ref : String),
        r.method = "GET" → r.pathname ≠ "/health" → r.pathname ≠ "/" →
        endsWithStr (toLowerStr r.pathname) ".jpg" = true →
        r.referer = some ref → ref ≠ "" →
        cache (middlewareCacheKey r) = some stored →
          (middlewareOnRequest cache origin r).response = stored
        ∧ (middlewareOnRequest cache origin r).originCalls = 0)
  ∧ (∀ stored : Response,
        (v3HitResponse stored).status = stored.status
      ∧ (v3HitResponse stored).body = stored.body
      ∧ getH "CF-Cache-Status" (v3HitResponse stored).headers = some "HIT")
  ∧ (∀ (cache : CacheKeyReq → Option Response) (r : Request) (stored : Response),
        cache (v2CacheKey r) = some stored →
          v2CacheCheck cache (v2CacheKey r)
            = some ⟨v2HitResponse stored, none, 0⟩
        ∧ (v2HitResponse stored).status = stored.status
        ∧ (v2HitResponse stored).body = stored.body
        ∧ getH "CF-Cache-Status" (v2HitResponse stored).headers = some "HIT"
        ∧ getH "Access-Control-Allow-Origin"
            (v2HitResponse stored).headers = some "*")
  ∧ (∀ (cache : CacheKeyReq → Option Response) (r : Request) (stored : Response),
        cache (v3CacheKey r) = some stored →
          v3CacheCheck cache (v3CacheKey r)
            = some ⟨v3HitResponse stored, none, 0⟩) := by
  refine ⟨?_, ?_, ?_, ?_, ?_⟩
  · intro cache origin r stored hm hcache
    rcases hm with hm | hm <;>
      simp [part000OnRequest, hm, hcache, part000HitResponse, setCors, corsHeaders,
        getH_setH]
  · intro cache origin r stored ref hm hh hroot hext hr href hcache
    have h2 : (r.pathname == "/health") = false := beq_eq_false_iff_ne.mpr hh
    have h3 : (r.pathname == "/") = false := beq_eq_false_iff_ne.mpr hroot
    have h5 : (ref == "") = false := beq_eq_false_iff_ne.mpr href
    simp [middlewareOnRequest, hm, h2, h3, hext, hr, h5, hcache]
  · intro stored
    simp [v3HitResponse, getH_setH]
  · intro cache r stored hcache
    refine ⟨by simp [v2CacheCheck, hcache], rfl, rfl, ?_, ?_⟩ <;>
      simp [v2HitResponse, setCors, v2CorsHeaders, getH_setH]
  · intro cache r stored hcache
    simp [v3CacheCheck, hcache]

/-- Witness for C7's amended statement: a concrete part_000 hit serves the
stored entry with refreshed HIT and CORS headers and zero origin calls. -/
theorem hit_path_by_variant_witness :
    (part000OnRequest
        (fun k => if k = part000CacheKey ⟨"/s.ts", ""⟩
            then some ⟨200, some "SEG", []⟩ else none)
        (fun _ => ⟨500, none, []⟩) ⟨"GET", "/s.ts", "", none, none⟩).response.status
      = (⟨200, some "SEG", []⟩ : Response).status
  ∧ (part000OnRequest
        (fun k => if k = part000CacheKey ⟨"/s.ts", ""⟩
            then some ⟨200, some "SEG", []⟩ else none)
        (fun _ => ⟨500, none, []⟩) ⟨"GET", "/s.ts", "", none, none⟩).response.body
      = (⟨200, some "SEG", []⟩ : Response).body
  ∧ getH "CF-Cache-Status"
      (part000OnRequest
        (fun k => if k = part000CacheKey ⟨"/s.ts", ""⟩
            then some ⟨200, some "SEG", []⟩ else none)
        (fun _ => ⟨500, none, []⟩) ⟨"GET", "/s.ts", "", none, none⟩).response.headers
      = some "HIT"
  ∧ getH "Access-Control-Allow-Origin"
      (part000OnRequest
        (fun k => if k = part000CacheKey ⟨"/s.ts", ""⟩
            then some ⟨200, some "SEG", []⟩ else none)
        (fun _ => ⟨500, none, []⟩) ⟨"GET", "/s.ts", "", none, none⟩).response.headers
      = some "*"
  ∧ (part000OnRequest
        (fun k => if k = part000CacheKey ⟨"/s.ts", ""⟩
            then some ⟨200, some "SEG", []⟩ else none)
        (fun _ => ⟨500, none, []⟩) ⟨"GET", "/s.ts", "", none, none⟩).originCalls = 0 :=
  hit_path_by_variant.1 _ _ ⟨"GET", "/s.ts", "", none, none⟩ ⟨200, some "SEG", []⟩
    (Or.inl rfl) (by decide)

/-- C8 counterexample: the top-level catch of functions/_middleware.js builds a
bare 502 with no headers at all, so its error response carries no CORS header. -/
theorem middleware_error_no_cors_counterexample :
    getH "Access-Control-Allow-Origin" (middlewareErrorResponse "boom").headers = none
  ∧ (middlewareErrorResponse "boom").status = 502
  ∧ (middlewareErrorResponse "boom").headers = [] := by
  decide

/-- C8 amended: only part_000 and the v2 variant convert a top-level error into
a 500 response that carries the CORS headers; functions/_middleware.js answers
502 with no headers at all, and the coalescing variant answers 500 with
Content-Type, X-Cache and Cache-Control headers but no CORS header. -/
theorem error_response_by_variant :
    (∀ msg : String, (part000ErrorResponse msg).status = 500
      ∧ getH "Access-Control-Allow-Origin" (part000ErrorResponse msg).headers = some "*")
  ∧ (∀ msg : String, (v2ErrorResponse msg).status = 500
      ∧ getH "Access-Control-Allow-Origin" (v2ErrorResponse msg).headers = some "*")
  ∧ (∀ msg : String, (middlewareErrorResponse msg).status = 502
      ∧ getH "Access-Control-Allow-Origin" (middlewareErrorResponse msg).headers = none)
  ∧ (∀ msg : String, (v3ErrorResponse msg).status = 500
      ∧ getH "Access-Control-Allow-Origin" (v3ErrorResponse msg).headers = none) :=
  ⟨fun _ => ⟨rfl, rfl⟩, fun _ => ⟨rfl, rfl⟩, fun _ => ⟨rfl, rfl⟩, fun _ => ⟨rfl, rfl⟩⟩

/-- Witness for C8's amended statement at a concrete error message. -/
theorem error_response_by_variant_witness :
    ((part000ErrorResponse "cache.match failed").status = 500
      ∧ getH "Access-Control-Allow-Origin"
          (part000ErrorResponse "cache.match failed").headers = some "*")
  ∧ ((v3ErrorResponse "cache.match failed").status = 500
      ∧ getH "Access-Control-Allow-Origin"
          (v3ErrorResponse "cache.match failed").headers = none) :=
  ⟨error_response_by_variant.1 "cache.match failed",
   error_response_by_variant.2.2.2 "cache.match failed"⟩

/-- C9 counterexample: functions/_middleware.js does not special-case OPTIONS;
an OPTIONS request falls into the method gate and receives 405, not 204. -/
theorem middleware_options_counterexample :
    (middlewareOnRequest (fun _ => none) (fun _ => Attempt.netfail "down")
        ⟨"OPTIONS", "/a.jpg", "", none, some "https://s.example/"⟩).response.status = 405
  ∧ (middlewareOnRequest (fun _ => none) (fun _ => Attempt.netfail "down")
        ⟨"OPTIONS", "/a.jpg", "", none, some "https://s.example/"⟩).response.status ≠ 204 := by
  decide

/-- C9 amended: inbound dispatch differs per variant.  part_000 and v2 answer
OPTIONS with 204 plus CORS headers before any cache or origin logic and answer
every other non-GET/HEAD method with 405; functions/_middleware.js and the
coalescing variant have no OPTIONS branch, so every non-GET/HEAD method —
OPTIONS included — receives 405; the health-check path answers 200 OK in
_middleware.js and v2, answers 200 with body x in the coalescing variant, and
does not exist in part_000, where such a request proceeds to cache and origin
logic. -/
theorem dispatch_by_variant :
    (∀ (cache : CacheKeyReq → Option Response) (origin : OriginCall → Response)
        (r : Request), r.method = "OPTIONS" →
          (part000OnRequest cache origin r).response.status = 204
        ∧ getH "Access-Control-Allow-Origin"
            (part000OnRequest cache origin r).response.headers = some "*"
        ∧ (part000OnRequest cache origin r).originCalls = 0)
  ∧ (∀ (cache : CacheKeyReq → Option Response) (origin : OriginCall → Response)
        (r : Request),
        r.method ≠ "GET" → r.method ≠ "HEAD" → r.method ≠ "OPTIONS" →
          (part000OnRequest cache origin r).response.status = 405)
  ∧ (∀ r : Request, r.method = "OPTIONS" →
        v2Dispatch r = some ⟨204, none, v2CorsHeaders⟩)
  ∧ (∀ r : Request, r.method ≠ "GET" → r.method ≠ "HEAD" → r.method ≠ "OPTIONS" →
        v2Dispatch r = some ⟨405, some "Method Not Allowed", v2CorsHeaders⟩)
  ∧ (∀ r : Request, r.method = "GET" → r.pathname = "/health" →
        v2Dispatch r = some ⟨200, some "OK", v2CorsHeaders⟩)
  ∧ (∀ (cache : CacheKeyReq → Option Response) (origin : Nat → Attempt)
        (r : Request), r.method ≠ "GET" → r.method ≠ "HEAD" →
          (middlewareOnRequest cache origin r).response.status = 405)
  ∧ (∀ (cache : CacheKeyReq → Option Response) (origin : Nat → Attempt)
        (r : Request), r.method = "GET" → r.pathname = "/health" →
          (middlewareOnRequest cache origin r).response = ⟨200, some "OK", []⟩)
  ∧ (∀ r : Request, r.method = "GET" → r.pathname = "/health" →
        v3Gate r = some ⟨200, some "x",
          [("Content-Type", "text/plain"), ("X-Powered-By", "Cloudflare-Pages-CDN")]⟩)
  ∧ (∀ r : Request, r.method ≠ "GET" → r.method ≠ "HEAD" →
        v3Gate r = some ⟨405, some "Method not allowed", []⟩)
  ∧ (part000OnRequest (fun _ => none) (fun _ => ⟨404, some "not found", []⟩)
        ⟨"GET", "/health", "", none, none⟩).originCalls = 1 := by
  refine ⟨?_, ?_, ?_, ?_, ?_, ?_, ?_, ?_, ?_, ?_⟩
  · intro cache origin r hm
    simp [part000OnRequest, hm, corsHeaders, getH]
  · intro cache origin r h1 h2 h3
    have b1 : (r.method == "GET") = false := beq_eq_false_iff_ne.mpr h1
    have b2 : (r.method == "HEAD") = false := beq_eq_false_iff_ne.mpr h2
    have b3 : (r.method == "OPTIONS") = false := beq_eq_false_iff_ne.mpr h3
    simp [part000OnRequest, b1, b2, b3, h1, h2]
  · intro r hm
    simp [v2Dispatch, hm]
  · intro r h1 h2 h3
    have b1 : (r.method == "GET") = false := beq_eq_false_iff_ne.mpr h1
    have b2 : (r.method == "HEAD") = false := beq_eq_false_iff_ne.mpr h2
    have b3 : (r.method == "OPTIONS") = false := beq_eq_false_iff_ne.mpr h3
    simp [v2Dispatch, b1, b2, b3, h1, h2]
  · intro r hm hp
    simp [v2Dispatch, hm, hp]
  · intro cache origin r h1 h2
    have b1 : (r.method == "GET") = false := beq_eq_false_iff_ne.mpr h1
    have b2 : (r.method == "HEAD") = false := beq_eq_false_iff_ne.mpr h2
    simp [middlewareOnRequest, b1, b2, h1, h2]
  · intro cache origin r hm hp
    simp [middlewareOnRequest, hm, hp]
  · intro r hm hp
    simp [v3Gate, hm, hp]
  · intro r h1 h2
    have b1 : (r.method == "GET") = false := beq_eq_false_iff_ne.mpr h1
    have b2 : (r.method == "HEAD") = false := beq_eq_false_iff_ne.mpr h2
    simp [v3Gate, b1, b2, h1, h2]
  · decide

/-- Witness for C9's amended statement: OPTIONS gets 204 from part_000 and the
health path gets 200 OK from v2. -/
theorem dispatch_by_variant_witness :
    ((part000OnRequest (fun _ => none) (fun _ => ⟨500, none, []⟩)
        ⟨"OPTIONS", "/x.ts", "", none, none⟩).response.status = 204
      ∧ getH "Access-Control-Allow-Origin"
          (part000OnRequest (fun _ => none) (fun _ => ⟨500, none, []⟩)
            ⟨"OPTIONS", "/x.ts", "", none, none⟩).response.headers = some "*"
      ∧ (part000OnRequest (fun _ => none) (fun _ => ⟨500, none, []⟩)
            ⟨"OPTIONS", "/x.ts", "", none, none⟩).originCalls = 0)
  ∧ v2Dispatch ⟨"GET", "/health", "", none, none⟩
      = some ⟨200, some "OK", v2CorsHeaders⟩ :=
  ⟨dispatch_by_variant.1 _ _ ⟨"OPTIONS", "/x.ts", "", none, none⟩ rfl,
   dispatch_by_variant.2.2.2.2.1 ⟨"GET", "/health", "", none, none⟩ rfl rfl⟩

end HlsProxy
